import Mathlib

/-!
# Verification of the RustOCR model-cache and request-orchestration layer

Shallow embedding of `src/easyocr_server_enhanced.py` (and the shared parts of
`src/easyocr_server.py`): the cache-key derivation `get_model_key`, the model
cache `get_or_create_model`, the stats middleware `track_requests`, the stats
snapshot `get_server_stats`, the OCR request handler `perform_ocr`, and the
`warmup_model` endpoint.  External collaborators (base64/PIL image decoding,
the `easyocr.Reader` constructor, `reader.readtext`) are opaque parameters
gathered in `Env`.  Machine floats are modelled as exact rationals; Python's
`round(x, 2)` is modelled as exact decimal rounding `round2`.
-/

namespace RustOCR

/-- Opaque handle standing for an `easyocr.Reader` instance. -/
abbrev Reader := Nat

/-- Opaque handle standing for a decoded PIL image. -/
abbrev Image := Nat

/-- The two `HTTPException` shapes the server raises:
status 400 (invalid image data) and status 500 (build / recognition failure). -/
inductive HTTPError where
  | badRequest (detail : String)
  | internalError (detail : String)
deriving Repr, DecidableEq

/-- The human-readable detail string of an `HTTPException`. -/
def HTTPError.detail : HTTPError → String
  | .badRequest d => d
  | .internalError d => d

/-- One value of the `MODEL_CACHE` dict: the fields `reader`, `languages`,
`loaded_at` and `gpu_enabled` stored by the build step
(src/easyocr_server_enhanced.py lines 117-122).  `loaded_at` is an abstract
timestamp. -/
structure CacheEntry where
  reader : Reader
  languages : List String
  loaded_at : Nat
  gpu_enabled : Bool
deriving Repr, DecidableEq

/-- The `MODEL_CACHE` dict, as an association list with unique keys
(Python dict: lookup by key, assignment overwrites or appends). -/
abbrev Cache := List (String × CacheEntry)

/-- Python `key in MODEL_CACHE` / `MODEL_CACHE[key]` read access. -/
def dictLookup (c : Cache) (k : String) : Option CacheEntry :=
  (c.find? fun p => p.1 = k).map (·.2)

/-- Python `MODEL_CACHE[key] = v`: overwrite an existing binding, else append. -/
def dictInsert (c : Cache) (k : String) (v : CacheEntry) : Cache :=
  if c.any (fun p => p.1 = k) then
    c.map fun p => if p.1 = k then (k, v) else p
  else
    c ++ [(k, v)]

/-- Lexicographic `≤` on lists of characters by code point — Python's
comparison of `str` values. -/
def charListLe : List Char → List Char → Bool
  | [], _ => true
  | _ :: _, [] => false
  | a :: as, b :: bs =>
    if a = b then charListLe as bs else decide (a.val.toNat < b.val.toNat)

/-- Python's `s1 <= s2` on strings: lexicographic by code points. -/
def strLe (s t : String) : Bool := charListLe s.data t.data

/-- Embedding of `get_model_key` (src/easyocr_server_enhanced.py lines 102-104, identical in
src/easyocr_server.py lines 74-76): `",".join(sorted(languages))`.  Python's
`sorted` is an ascending stable sort; `strLe` is Python's string
comparison. -/
def get_model_key (languages : List String) : String :=
  String.intercalate "," (languages.insertionSort fun a b => strLe a b = true)

/-- The cache key used for a request carrying `languages` and `gpu`:
`get_or_create_model` derives it from the languages alone
(src/easyocr_server_enhanced.py line 109); the `gpu` argument does not
flow into the key. -/
def request_key (languages : List String) (_gpu : Bool) : String :=
  get_model_key languages

/-- Embedding of `get_or_create_model` (src/easyocr_server_enhanced.py lines 107-129,
identical in src/easyocr_server.py lines 79-101), sequential semantics.
`builder` stands for the `easyocr.Reader(languages, gpu=gpu, verbose=False)`
constructor; `none` models the constructor raising.  Returns the result
(`Except` models raising `HTTPException(500, ...)`), the cache after the call,
and the number of builder invocations performed (0 or 1). -/
def get_or_create_model (builder : List String → Bool → Option Reader)
    (cache : Cache) (languages : List String) (gpu : Bool) (now : Nat) :
    Except HTTPError Reader × Cache × Nat :=
  let model_key := get_model_key languages
  match dictLookup cache model_key with
  | some entry => (Except.ok entry.reader, cache, 0)
  | none =>
    match builder languages gpu with
    | some reader =>
        (Except.ok reader,
         dictInsert cache model_key
           { reader := reader, languages := languages, loaded_at := now,
             gpu_enabled := gpu },
         1)
    | none =>
        (Except.error (HTTPError.internalError "Failed to load model"), cache, 1)

/-- The `STATS` global dict (src/easyocr_server_enhanced.py lines 32-37). -/
structure Stats where
  total_requests : Nat
  successful_requests : Nat
  failed_requests : Nat
  processing_times : List ℚ
deriving Repr, DecidableEq

/-- Initial `STATS` value. -/
def initStats : Stats :=
  { total_requests := 0, successful_requests := 0, failed_requests := 0,
    processing_times := [] }

/-- The `track_requests` middleware (src/easyocr_server_enhanced.py lines
186-206): it wraps every HTTP endpoint of the app.  `outcome` is what
`await call_next(request)` does — return a response of some type `ρ` or raise.
The `try` arm increments success, the `except` arm increments failure (and
re-raises, which the caller of this function models by keeping `outcome`), and
the `finally` arm always increments the total and appends one latency sample,
popping the oldest when more than 1000 are retained. -/
def track_requests {ρ : Type} (s : Stats) (outcome : Except HTTPError ρ)
    (elapsedMs : ℚ) : Stats :=
  let s1 :=
    match outcome with
    | .ok _ => { s with successful_requests := s.successful_requests + 1 }
    | .error _ => { s with failed_requests := s.failed_requests + 1 }
  let s2 := { s1 with total_requests := s1.total_requests + 1 }
  let times := s2.processing_times ++ [elapsedMs]
  { s2 with
    processing_times := if times.length > 1000 then times.drop 1 else times }

/-- The middleware applied to a whole sequence of completed requests (to any
endpoints — `track_requests` never inspects the route), starting from the
initial `STATS`. -/
def run_middleware {ρ : Type} (reqs : List (Except HTTPError ρ × ℚ)) : Stats :=
  reqs.foldl (fun s ot => track_requests s ot.1 ot.2) initStats

/-- Exact rounding to two decimal places, modelling Python's `round(x, 2)`
on the exact rational value. -/
def round2 (q : ℚ) : ℚ := (round (q * 100) : ℤ) / 100

/-- The `ServerStatsResponse` fields computed by `get_server_stats`
(src/easyocr_server_enhanced.py lines 84-92); `loaded_models` and
`uptime_seconds` are carried by the endpoint, not by the stats state, and are
kept abstract. -/
structure StatsSnapshot where
  total_requests : Nat
  successful_requests : Nat
  failed_requests : Nat
  success_rate : ℚ
  average_processing_time_ms : ℚ
deriving Repr, DecidableEq

/-- Embedding of `get_server_stats` (src/easyocr_server_enhanced.py lines 266-282):
`avg = sum/len if nonempty else 0`, `success_rate = success/total*100 if
total > 0 else 0`, both rounded to two decimals in the response. -/
def get_server_stats (s : Stats) : StatsSnapshot :=
  let avg : ℚ :=
    if s.processing_times.length ≠ 0 then
      s.processing_times.sum / (s.processing_times.length : ℚ)
    else 0
  let total := s.total_requests
  let success_rate : ℚ :=
    if total > 0 then (s.successful_requests : ℚ) / (total : ℚ) * 100 else 0
  { total_requests := s.total_requests,
    successful_requests := s.successful_requests,
    failed_requests := s.failed_requests,
    success_rate := round2 success_rate,
    average_processing_time_ms := round2 avg }

/-- One raw span produced by `reader.readtext`: a bounding box of corner
points (float coordinates), a text, and a confidence, all as the model yields
them. -/
structure RawSpan where
  bbox : List (ℚ × ℚ)
  text : String
  confidence : ℚ
deriving Repr, DecidableEq

/-- The `OcrResult` pydantic model (src/easyocr_server_enhanced.py lines
49-53): defaults `bbox = []` and `confidence = 0.0`. -/
structure OcrResult where
  bbox : List (List Int)
  text : String
  confidence : ℚ
deriving Repr, DecidableEq

/-- The body of a successful `OcrResponse` (src/easyocr_server_enhanced.py
lines 56-63); timing fields are abstract rationals. -/
structure OcrResponseBody where
  status : String
  results : List OcrResult
  processing_time_ms : ℚ
  model_load_time_ms : ℚ
deriving Repr, DecidableEq

/-- The `OcrRequest` pydantic model (src/easyocr_server_enhanced.py lines
41-46).  Pydantic enforces `0 ≤ detail ≤ 1` before the handler runs. -/
structure OcrRequest where
  image : String
  languages : List String
  detail : Nat
  gpu : Bool
deriving Repr, DecidableEq

/-- Python's `int()` on a float: truncation toward zero. -/
def pyInt (q : ℚ) : Int := if 0 ≤ q then ⌊q⌋ else ⌈q⌉

/-- The external collaborators of `perform_ocr`:
`decode` models `base64.b64decode` + `Image.open` (`none` = raising, handled
as a 400); `builder` models the `easyocr.Reader` constructor; `readtext`
models `reader.readtext(image, detail=detail)`, with `.error` modelling a
raised exception.  Library contract: with `detail=0` readtext returns exactly
the texts of the spans it returns with `detail=1`, so a single span list
describes both shapes. -/
structure Env where
  decode : String → Option Image
  builder : List String → Bool → Option Reader
  readtext : Reader → Image → Nat → Except String (List RawSpan)

/-- Embedding of `perform_ocr` (src/easyocr_server_enhanced.py lines 298-358): decode the
image (400 on failure), resolve the model through `get_or_create_model`
(whose `HTTPException` propagates through the `except HTTPException: raise`
arm), run recognition (a raised exception becomes a 500 via the generic
`except`), then map the raw results according to the detail level.  Returns
the outcome, the cache after the call, and the number of builder invocations.
Timing fields are abstract and set to 0. -/
def perform_ocr (env : Env) (cache : Cache) (req : OcrRequest) (now : Nat) :
    Except HTTPError OcrResponseBody × Cache × Nat :=
  match env.decode req.image with
  | none =>
      (Except.error (HTTPError.badRequest "Invalid image data"), cache, 0)
  | some image =>
    match get_or_create_model env.builder cache req.languages req.gpu now with
    | (Except.error e, cache2, b) => (Except.error e, cache2, b)
    | (Except.ok reader, cache2, b) =>
      match env.readtext reader image req.detail with
      | .error msg => (Except.error (HTTPError.internalError msg), cache2, b)
      | .ok spans =>
        let ocr_results :=
          if req.detail = 0 then
            -- Simple mode: `[OcrResult(text=text) for text in results]`
            spans.map fun s =>
              { bbox := [], text := s.text, confidence := 0 }
          else
            -- Detailed mode: bbox, text, confidence
            spans.map fun s =>
              { bbox := s.bbox.map fun p => [pyInt p.1, pyInt p.2],
                text := s.text, confidence := s.confidence }
        (Except.ok
          { status := "success", results := ocr_results,
            processing_time_ms := 0, model_load_time_ms := 0 },
         cache2, b)

/-!
## Interleaving model of concurrent `get_or_create_model` calls

`get_or_create_model` has no synchronization: the membership check
(line 111) and the build-and-install step (lines 116-122) are separate
operations on the shared `MODEL_CACHE`.  To reason about N concurrent
callers we give each caller a two-step program — (1) check the cache,
finishing immediately on a hit; (2) if the check missed, invoke the builder
and install — and run the callers' atomic steps in the order given by a
schedule (a list of caller indices).  All callers use the same languages and
gpu arguments. -/

deriving instance DecidableEq for Except

/-- The control point of one caller inside `get_or_create_model`. -/
inductive CallerPhase where
  | start
  | building
  | finished (r : Except HTTPError Reader)
deriving Repr, DecidableEq

/-- Shared state plus each caller's control point; `builds` counts builder
invocations across all callers. -/
structure ConcState where
  cache : Cache
  builds : Nat
  callers : List CallerPhase
deriving Repr, DecidableEq

/-- One atomic step of caller `i` (a no-op for a finished or non-existent
caller): the cache-membership check, or the build-and-install. -/
def stepCaller (builder : List String → Bool → Option Reader)
    (languages : List String) (gpu : Bool) (now : Nat)
    (s : ConcState) (i : Nat) : ConcState :=
  match s.callers.get? i with
  | none => s
  | some .building =>
    match builder languages gpu with
    | some reader =>
        { cache :=
            dictInsert s.cache (get_model_key languages)
              { reader := reader, languages := languages, loaded_at := now,
                gpu_enabled := gpu },
          builds := s.builds + 1,
          callers := s.callers.set i (.finished (Except.ok reader)) }
    | none =>
        { s with
          builds := s.builds + 1,
          callers := s.callers.set i
            (.finished (Except.error
              (HTTPError.internalError "Failed to load model"))) }
  | some .start =>
    match dictLookup s.cache (get_model_key languages) with
    | some entry =>
        { s with callers := s.callers.set i (.finished (Except.ok entry.reader)) }
    | none =>
        { s with callers := s.callers.set i .building }
  | some (.finished _) => s

/-- Run a schedule of caller steps from a state. -/
def runSchedule (builder : List String → Bool → Option Reader)
    (languages : List String) (gpu : Bool) (now : Nat)
    (s : ConcState) (sched : List Nat) : ConcState :=
  sched.foldl (stepCaller builder languages gpu now) s

/-- N callers about to enter `get_or_create_model`, empty cache. -/
def initConc (n : Nat) : ConcState :=
  { cache := [], builds := 0, callers := List.replicate n .start }

/-- A serializing schedule: caller 0 runs to completion, then caller 1, ... -/
def serialSchedule (n : Nat) : List Nat :=
  (List.range n).flatMap fun i => [i, i]

/-- Embedding of `warmup_model` (src/easyocr_server_enhanced.py lines 361-369): call
`get_or_create_model`; any exception (the `HTTPException` included) is caught
and re-raised as `HTTPException(500, str(e))`. -/
def warmup_model (builder : List String → Bool → Option Reader)
    (cache : Cache) (languages : List String) (gpu : Bool) (now : Nat) :
    Except HTTPError (String × List String) × Cache × Nat :=
  let r := get_or_create_model builder cache languages gpu now
  match r.1 with
  | .ok _ => (Except.ok ("success", languages), r.2.1, r.2.2)
  | .error e =>
      (Except.error (HTTPError.internalError e.detail), r.2.1, r.2.2)

/-- What `await call_next(request)` hands a user middleware: a normal HTTP
response, which is either the handler's success body or an error payload. -/
inductive HTTPResponse where
  | success (body : OcrResponseBody)
  | errorResponse (status : Nat) (detail : String)
deriving Repr, DecidableEq

/-- The framework layer between the route handler and the user middleware.
FastAPI mounts user middleware OUTSIDE Starlette's ExceptionMiddleware, so a
raised `HTTPException` — every error `perform_ocr` produces — is converted
into a normal JSON error response (400/500) before `call_next` returns to
`track_requests`; only the resulting response, never the raise, reaches the
middleware. -/
def toResponse : Except HTTPError OcrResponseBody → HTTPResponse
  | .ok body => HTTPResponse.success body
  | .error (HTTPError.badRequest d) => HTTPResponse.errorResponse 400 d
  | .error (HTTPError.internalError d) => HTTPResponse.errorResponse 500 d

/-!
## Derived notions and concrete instances used by the theorems below
-/

/-- The last `n` elements of a list (all of it when it is shorter). -/
def lastN {α : Type} (n : Nat) (l : List α) : List α := l.drop (l.length - n)

/-- Arithmetic mean of a list of rationals, 0 for the empty list. -/
def meanQ (w : List ℚ) : ℚ := if w.length ≠ 0 then w.sum / (w.length : ℚ) else 0

/-- The number of outcomes in a request sequence that returned normally. -/
def countOk {ρ : Type} (reqs : List (Except HTTPError ρ × ℚ)) : Nat :=
  (reqs.filter fun ot =>
    match ot.1 with
    | .ok _ => true
    | .error _ => false).length

/-- A builder that always succeeds with the same handle. -/
def constBuilder : List String → Bool → Option Reader := fun _ _ => some 7

/-- A builder whose handle records the accelerator flag it was built with. -/
def gpuProbeBuilder : List String → Bool → Option Reader :=
  fun _ g => some (if g then 1 else 2)

/-- A builder that always fails. -/
def failBuilder : List String → Bool → Option Reader := fun _ _ => none

/-- A one-entry cache: the handle for key `"en"`, built with gpu enabled. -/
def cacheEn : Cache :=
  [("en", { reader := 1, languages := ["en"], loaded_at := 0,
            gpu_enabled := true })]

/-- Environment whose image decoding fails (an undecodable payload). -/
def envDecodeFail : Env :=
  { decode := fun _ => none, builder := constBuilder,
    readtext := fun _ _ _ => Except.ok [] }

/-- Environment whose recognition call raises. -/
def envRecogFail : Env :=
  { decode := fun _ => some 0, builder := constBuilder,
    readtext := fun _ _ _ => Except.error "recognition failed" }

/-- The one-span recognition output from the spec's end-to-end scenario. -/
def demoSpan : RawSpan :=
  { bbox := [(0, 0), (10, 0), (10, 10), (0, 10)], text := "HI",
    confidence := 95 / 100 }

/-- Environment whose recognition returns `demoSpan`. -/
def envDemo : Env :=
  { decode := fun _ => some 0, builder := constBuilder,
    readtext := fun _ _ _ => Except.ok [demoSpan] }

/-- Three completed requests: one success, two failures, with latency samples
5, 7 and 11 ms. -/
def threeReqs : List (Except HTTPError Nat × ℚ) :=
  [(Except.ok 0, 5), (Except.error (HTTPError.internalError "a"), 7),
   (Except.error (HTTPError.internalError "b"), 11)]

/-!
## Order properties of the string comparison used by `sorted`
-/

theorem charListLe_total : ∀ a b : List Char, charListLe a b = true ∨ charListLe b a = true
  | [], _ => Or.inl rfl
  | _ :: _, [] => Or.inr rfl
  | a :: as, b :: bs => by
    by_cases hab : a = b
    · subst hab
      rcases charListLe_total as bs with h | h
      · exact Or.inl (by simpa [charListLe] using h)
      · exact Or.inr (by simpa [charListLe] using h)
    · have hv : a.val.toNat ≠ b.val.toNat := fun h => hab (Char.ext (UInt32.ext h))
      have hba : b ≠ a := fun h => hab h.symm
      rcases lt_or_gt_of_ne hv with h | h
      · exact Or.inl (by simp [charListLe, hab, h])
      · exact Or.inr (by simp [charListLe, hba, h])

theorem charListLe_trans : ∀ a b c : List Char,
    charListLe a b = true → charListLe b c = true → charListLe a c = true
  | [], _, _, _, _ => rfl
  | _ :: _, [], _, h1, _ => by simp [charListLe] at h1
  | _ :: _, _ :: _, [], _, h2 => by simp [charListLe] at h2
  | a :: as, b :: bs, c :: cs, h1, h2 => by
    by_cases hab : a = b <;> by_cases hbc : b = c
    · subst hab; subst hbc
      simp only [charListLe, if_pos rfl] at h1 h2 ⊢
      exact charListLe_trans as bs cs h1 h2
    · subst hab
      simp only [charListLe, if_neg hbc, decide_eq_true_eq] at h2 ⊢
      exact h2
    · subst hbc
      simp only [charListLe, if_neg hab, decide_eq_true_eq] at h1 ⊢
      exact h1
    · simp only [charListLe, if_neg hab, if_neg hbc, decide_eq_true_eq] at h1 h2
      have hac : a.val.toNat < c.val.toNat := lt_trans h1 h2
      have : a ≠ c := fun h =>
        absurd (congrArg (fun x => x.val.toNat) h) (ne_of_lt hac)
      simp only [charListLe, if_neg this, decide_eq_true_eq]
      exact hac

theorem charListLe_antisymm : ∀ a b : List Char,
    charListLe a b = true → charListLe b a = true → a = b
  | [], [], _, _ => rfl
  | [], _ :: _, _, h2 => by simp [charListLe] at h2
  | _ :: _, [], h1, _ => by simp [charListLe] at h1
  | a :: as, b :: bs, h1, h2 => by
    by_cases hab : a = b
    · subst hab
      simp only [charListLe, if_pos rfl] at h1 h2
      rw [charListLe_antisymm as bs h1 h2]
    · exfalso
      have hba : b ≠ a := fun h => hab h.symm
      simp only [charListLe, if_neg hab, if_neg hba, decide_eq_true_eq] at h1 h2
      exact lt_asymm h1 h2

/-- Sorting is invariant under permutation of the input, hence so is the
derived cache key. -/
theorem get_model_key_perm {l1 l2 : List String} (h : l1.Perm l2) :
    get_model_key l1 = get_model_key l2 := by
  haveI : IsTotal String fun a b => strLe a b = true :=
    ⟨fun a b => charListLe_total a.data b.data⟩
  haveI : IsTrans String fun a b => strLe a b = true :=
    ⟨fun a b c => charListLe_trans a.data b.data c.data⟩
  haveI : IsAntisymm String fun a b => strLe a b = true :=
    ⟨fun a b h1 h2 => by
      cases a; cases b
      exact congrArg String.mk (charListLe_antisymm _ _ h1 h2)⟩
  unfold get_model_key
  congr 1
  exact List.eq_of_perm_of_sorted
    (((List.perm_insertionSort _ l1).trans h).trans
      (List.perm_insertionSort _ l2).symm)
    (List.sorted_insertionSort _ l1) (List.sorted_insertionSort _ l2)

/-!
## Behaviour of `get_or_create_model` on hits, misses and failed builds
-/

theorem getOrCreate_hit {builder : List String → Bool → Option Reader}
    {cache : Cache} {languages : List String} {gpu : Bool} {now : Nat}
    {entry : CacheEntry}
    (h : dictLookup cache (get_model_key languages) = some entry) :
    get_or_create_model builder cache languages gpu now =
      (Except.ok entry.reader, cache, 0) := by
  unfold get_or_create_model
  simp [h]

theorem getOrCreate_miss_ok {builder : List String → Bool → Option Reader}
    {cache : Cache} {languages : List String} {gpu : Bool} {now : Nat}
    {reader : Reader}
    (hmiss : dictLookup cache (get_model_key languages) = none)
    (hbuild : builder languages gpu = some reader) :
    get_or_create_model builder cache languages gpu now =
      (Except.ok reader,
       dictInsert cache (get_model_key languages)
         { reader := reader, languages := languages, loaded_at := now,
           gpu_enabled := gpu },
       1) := by
  unfold get_or_create_model
  simp [hmiss, hbuild]

theorem getOrCreate_miss_fail {builder : List String → Bool → Option Reader}
    {cache : Cache} {languages : List String} {gpu : Bool} {now : Nat}
    (hmiss : dictLookup cache (get_model_key languages) = none)
    (hbuild : builder languages gpu = none) :
    get_or_create_model builder cache languages gpu now =
      (Except.error (HTTPError.internalError "Failed to load model"), cache, 1) := by
  unfold get_or_create_model
  simp [hmiss, hbuild]

/-!
## Stats middleware: counters and the bounded latency window
-/

theorem countOk_le_length {ρ : Type} (reqs : List (Except HTTPError ρ × ℚ)) :
    countOk reqs ≤ reqs.length :=
  List.length_filter_le _ _

theorem lastN_append_lastN {α : Type} (n : Nat) (A B : List α) :
    lastN n (lastN n A ++ B) = lastN n (A ++ B) := by
  unfold lastN
  rw [List.length_append, List.length_drop, List.length_append]
  rw [show A.drop (A.length - n) ++ B = (A ++ B).drop (A.length - n) from
    (List.drop_append_of_le_length (Nat.sub_le A.length n)).symm]
  rw [List.drop_drop]
  congr 1
  omega

theorem track_total {ρ : Type} (s : Stats) (o : Except HTTPError ρ) (t : ℚ) :
    (track_requests s o t).total_requests = s.total_requests + 1 := by
  cases o <;> simp [track_requests]

theorem track_ok {ρ : Type} (s : Stats) (v : ρ) (t : ℚ) :
    (track_requests s (Except.ok v) t).successful_requests =
      s.successful_requests + 1 ∧
    (track_requests s (Except.ok v) t).failed_requests = s.failed_requests := by
  simp [track_requests]

theorem track_err {ρ : Type} (s : Stats) (e : HTTPError) (t : ℚ) :
    (track_requests s (Except.error e : Except HTTPError ρ) t).failed_requests =
      s.failed_requests + 1 ∧
    (track_requests s (Except.error e : Except HTTPError ρ) t).successful_requests =
      s.successful_requests := by
  simp [track_requests]

theorem track_window {ρ : Type} (s : Stats) (o : Except HTTPError ρ) (t : ℚ)
    (h : s.processing_times.length ≤ 1000) :
    (track_requests s o t).processing_times =
      lastN 1000 (s.processing_times ++ [t]) ∧
    (track_requests s o t).processing_times.length ≤ 1000 := by
  have hw : (track_requests s o t).processing_times =
      if (s.processing_times ++ [t]).length > 1000 then
        (s.processing_times ++ [t]).drop 1
      else s.processing_times ++ [t] := by
    cases o <;> simp [track_requests]
  rw [hw]
  by_cases hlen : (s.processing_times ++ [t]).length > 1000
  · have hlen1 : (s.processing_times ++ [t]).length = 1001 := by
      rw [List.length_append] at hlen ⊢; simp at hlen ⊢; omega
    rw [if_pos hlen]
    unfold lastN
    rw [hlen1]
    constructor
    · rfl
    · rw [List.length_drop, hlen1]
  · rw [if_neg hlen]
    unfold lastN
    have : (s.processing_times ++ [t]).length - 1000 = 0 := by omega
    rw [this, List.drop_zero]
    exact ⟨rfl, by omega⟩

/-- Running the middleware over a request sequence from any stats state whose
window is within capacity: counters advance by exact outcome counts and the
window holds exactly the most recent 1000 samples. -/
theorem foldl_track_spec {ρ : Type} (reqs : List (Except HTTPError ρ × ℚ))
    (s : Stats) (h : s.processing_times.length ≤ 1000) :
    (reqs.foldl (fun st ot => track_requests st ot.1 ot.2) s).total_requests =
      s.total_requests + reqs.length ∧
    (reqs.foldl (fun st ot => track_requests st ot.1 ot.2) s).successful_requests =
      s.successful_requests + countOk reqs ∧
    (reqs.foldl (fun st ot => track_requests st ot.1 ot.2) s).failed_requests =
      s.failed_requests + (reqs.length - countOk reqs) ∧
    (reqs.foldl (fun st ot => track_requests st ot.1 ot.2) s).processing_times =
      lastN 1000 (s.processing_times ++ reqs.map Prod.snd) ∧
    (reqs.foldl (fun st ot => track_requests st ot.1 ot.2) s).processing_times.length
      ≤ 1000 := by
  induction reqs generalizing s with
  | nil =>
    have h0 : s.processing_times.length - 1000 = 0 := by omega
    refine ⟨rfl, ?_, ?_, ?_, h⟩ <;> simp [countOk, lastN, h0]
  | cons hd tl ih =>
    obtain ⟨o, t⟩ := hd
    have hwin := track_window s o t h
    have ih1 := ih (track_requests s o t) hwin.2
    simp only [List.foldl_cons] at *
    refine ⟨?_, ?_, ?_, ?_, ih1.2.2.2.2⟩
    · rw [ih1.1, track_total, List.length_cons]; omega
    · rw [ih1.2.1]
      cases o with
      | ok v =>
        rw [(track_ok s v t).1]
        simp [countOk, List.filter]
        omega
      | error e =>
        rw [(track_err s e t).2]
        simp [countOk, List.filter]
    · rw [ih1.2.2.1]
      have hle := countOk_le_length tl
      cases o with
      | ok v =>
        rw [(track_ok s v t).2]
        simp only [countOk, List.filter, List.length_cons]
        omega
      | error e =>
        rw [(track_err s e t).1]
        simp only [countOk, List.filter, List.length_cons]
        simp only [countOk] at hle
        omega
    · rw [ih1.2.2.2.1, hwin.1, List.map_cons]
      rw [lastN_append_lastN]
      congr 1
      simp

/-!
## Claims
-/

/-- Claim C3, counterexample.  The claim asserts `canonicalize(["en","en"]) =
canonicalize(["en"])` (duplicates ignored); `get_model_key` does not
de-duplicate, so the two keys differ (`"en,en"` vs `"en"`). -/
theorem c3_counterexample_duplicates_kept :
    get_model_key ["en", "en"] ≠ get_model_key ["en"] := by decide

/-- Claim C3, amended.  Key canonicalization is multiset-based, not set-based:
any two language lists that are permutations of each other (same languages
with the same multiplicities, any order) and the same accelerator preference
derive equal cache keys; duplicates are not collapsed. -/
theorem c3_key_invariant_under_permutation {l1 l2 : List String}
    (h : l1.Perm l2) : get_model_key l1 = get_model_key l2 :=
  get_model_key_perm h

/-- Claim C3, witness.  `canonicalize(["en","fr"]) = canonicalize(["fr","en"])`. -/
theorem c3_key_invariant_under_permutation_witness :
    get_model_key ["en", "fr"] = get_model_key ["fr", "en"] :=
  c3_key_invariant_under_permutation (List.Perm.swap "fr" "en" [])

/-- Claim C5, counterexample.  Canonicalizing the empty language list does not
fail: it produces the empty-string key, and `get_or_create_model` proceeds to
a build with it (here the builder succeeds and its handle is installed under
key `""`). -/
theorem c5_counterexample_empty_list_proceeds :
    get_model_key [] = "" ∧
    get_or_create_model constBuilder [] [] true 0 =
      (Except.ok 7,
       [("", { reader := 7, languages := [], loaded_at := 0,
               gpu_enabled := true })],
       1) :=
  ⟨rfl, rfl⟩

/-- Claim C5, amended.  There is no `InvalidLanguageList` validation:
`get_model_key []` returns the empty-string key and `get_or_create_model`
with an empty language list on an empty cache proceeds to invoke the builder
(exactly one invocation), whatever the builder then does. -/
theorem c5_empty_list_not_validated
    (builder : List String → Bool → Option Reader) (gpu : Bool) (now : Nat) :
    get_model_key [] = "" ∧
    (get_or_create_model builder [] [] gpu now).2.2 = 1 := by
  refine ⟨rfl, ?_⟩
  unfold get_or_create_model
  cases h : builder [] gpu <;> simp [dictLookup, h]

/-- Claim C2, counterexample.  The cache key ignores the accelerator flag: a
request for `["en"]` with gpu=false after one with gpu=true resolves to the
same key `"en"`, triggers no second build, and receives the handle built with
gpu=true (`gpuProbeBuilder` encodes the flag in the handle: 1 = gpu). -/
theorem c2_counterexample_key_ignores_gpu :
    request_key ["en"] true = request_key ["en"] false ∧
    get_or_create_model gpuProbeBuilder [] ["en"] true 0 =
      (Except.ok 1,
       [("en", { reader := 1, languages := ["en"], loaded_at := 0,
                 gpu_enabled := true })],
       1) ∧
    get_or_create_model gpuProbeBuilder
      [("en", { reader := 1, languages := ["en"], loaded_at := 0,
                gpu_enabled := true })] ["en"] false 0 =
      (Except.ok 1,
       [("en", { reader := 1, languages := ["en"], loaded_at := 0,
                 gpu_enabled := true })],
       0) :=
  ⟨rfl, rfl, rfl⟩

/-- Claim C2, amended.  The cache key does not incorporate the accelerator
preference: a request's key depends only on its language list, so two
requests with the same languages and different accelerator flags resolve to
the same key, and once that key is cached any such request receives the
cached handle — built with the original requester's flag — with no further
builder invocation. -/
theorem c2_key_independent_of_gpu
    (builder : List String → Bool → Option Reader) (cache : Cache)
    (languages : List String) (g g' : Bool) (now : Nat) (entry : CacheEntry)
    (h : dictLookup cache (request_key languages g) = some entry) :
    request_key languages g = request_key languages g' ∧
    get_or_create_model builder cache languages g' now =
      (Except.ok entry.reader, cache, 0) :=
  ⟨rfl, getOrCreate_hit h⟩

/-- Claim C2, witness.  With `"en"` cached (gpu=true build), a gpu=false request
resolves to the same key and receives the gpu=true handle with no build. -/
theorem c2_key_independent_of_gpu_witness :
    request_key ["en"] true = request_key ["en"] false ∧
    get_or_create_model gpuProbeBuilder cacheEn ["en"] false 0 =
      (Except.ok 1, cacheEn, 0) :=
  c2_key_independent_of_gpu gpuProbeBuilder cacheEn ["en"] true false 0
    { reader := 1, languages := ["en"], loaded_at := 0, gpu_enabled := true }
    rfl

/-- Claim C6.  When the builder raises inside `get_or_create_model`, the error
is surfaced to the caller and the cache is returned unchanged for that key —
no entry and no residual building state — so a subsequent call for the same
key with a succeeding builder invokes the builder again and installs the
handle. -/
theorem c6_failed_build_leaves_cache_clean
    (builder builder2 : List String → Bool → Option Reader)
    (cache : Cache) (languages : List String) (gpu : Bool) (now now2 : Nat)
    (r : Reader)
    (hmiss : dictLookup cache (get_model_key languages) = none)
    (hfail : builder languages gpu = none)
    (hok : builder2 languages gpu = some r) :
    get_or_create_model builder cache languages gpu now =
      (Except.error (HTTPError.internalError "Failed to load model"),
       cache, 1) ∧
    get_or_create_model builder2 cache languages gpu now2 =
      (Except.ok r,
       dictInsert cache (get_model_key languages)
         { reader := r, languages := languages, loaded_at := now2,
           gpu_enabled := gpu },
       1) :=
  ⟨getOrCreate_miss_fail hmiss hfail, getOrCreate_miss_ok hmiss hok⟩

/-- Claim C6, witness.  A failed `["en"]` build on the empty cache surfaces the
500 error and leaves the cache empty; the retry with a working builder
builds. -/
theorem c6_failed_build_leaves_cache_clean_witness :
    get_or_create_model failBuilder [] ["en"] true 0 =
      (Except.error (HTTPError.internalError "Failed to load model"), [], 1) ∧
    get_or_create_model constBuilder [] ["en"] true 1 =
      (Except.ok 7,
       dictInsert [] (get_model_key ["en"])
         { reader := 7, languages := ["en"], loaded_at := 1,
           gpu_enabled := true },
       1) :=
  c6_failed_build_leaves_cache_clean failBuilder constBuilder [] ["en"]
    true 0 1 7 rfl rfl rfl

/-- On a cache hit, `perform_ocr` returns the cache unchanged and performs no
build, whatever the decode, recognition or detail level does. -/
theorem perform_ocr_cache_hit (env : Env) (cache : Cache) (req : OcrRequest)
    (now : Nat) (entry : CacheEntry)
    (h : dictLookup cache (get_model_key req.languages) = some entry) :
    (perform_ocr env cache req now).2.1 = cache ∧
    (perform_ocr env cache req now).2.2 = 0 := by
  unfold perform_ocr
  cases hdec : env.decode req.image with
  | none => exact ⟨rfl, rfl⟩
  | some image =>
    rw [@getOrCreate_hit env.builder cache req.languages req.gpu now entry h]
    dsimp only
    cases hread : env.readtext entry.reader image req.detail with
    | error msg => exact ⟨rfl, rfl⟩
    | ok spans => exact ⟨rfl, rfl⟩

/-- Claim C7.  Once a handle is installed for a key: every subsequent
`get_or_create_model` call for that key returns the existing handle with no
builder invocation and the cache unchanged; `warmup_model` on the cached key
succeeds and leaves the cache unchanged; and `perform_ocr` on any request for
those languages — whatever its image, detail level, gpu flag, or recognition
outcome (failures included) — leaves the cache unchanged and performs no
build, so the entry is never evicted or replaced. -/
theorem c7_installed_handle_is_stable
    (builder : List String → Bool → Option Reader) (cache : Cache)
    (languages : List String) (gpu : Bool) (now : Nat) (entry : CacheEntry)
    (h : dictLookup cache (get_model_key languages) = some entry) :
    get_or_create_model builder cache languages gpu now =
      (Except.ok entry.reader, cache, 0) ∧
    warmup_model builder cache languages gpu now =
      (Except.ok ("success", languages), cache, 0) ∧
    ∀ (env : Env) (req : OcrRequest), req.languages = languages →
      (perform_ocr env cache req now).2.1 = cache ∧
      (perform_ocr env cache req now).2.2 = 0 := by
  refine ⟨getOrCreate_hit h, ?_, ?_⟩
  · unfold warmup_model
    rw [getOrCreate_hit h]
  · intro env req hreq
    exact perform_ocr_cache_hit env cache req now entry (by rw [hreq]; exact h)

/-- Claim C7, witness.  With `"en"` cached, a further call returns the cached
handle with no build, warmup is a cache no-op, and a request whose
recognition raises leaves the cache entry in place. -/
theorem c7_installed_handle_is_stable_witness :
    get_or_create_model failBuilder cacheEn ["en"] false 5 =
      (Except.ok 1, cacheEn, 0) ∧
    warmup_model failBuilder cacheEn ["en"] false 5 =
      (Except.ok ("success", ["en"]), cacheEn, 0) ∧
    (perform_ocr envRecogFail cacheEn
      { image := "img", languages := ["en"], detail := 1, gpu := true }
      5).2.1 = cacheEn :=
  have hc := c7_installed_handle_is_stable failBuilder cacheEn ["en"] false 5
    { reader := 1, languages := ["en"], loaded_at := 0, gpu_enabled := true }
    rfl
  ⟨hc.1, hc.2.1,
   (hc.2.2 envRecogFail
     { image := "img", languages := ["en"], detail := 1, gpu := true } rfl).1⟩

/-- Claim C10.  The tracking middleware wraps every HTTP endpoint (it is
installed on the app and never inspects the route): after any sequence of
completed requests — to the OCR endpoint, `/api/v1/stats`, `/api/v1/health`,
or anything else, with any outcomes — the total counter equals the number of
requests, the success/failure counters partition it exactly
(`total = success + fail`), and the latency window has received one sample
per request (capped at 1000 retained); moreover each single request
increments the total by one and exactly one of the two outcome counters. -/
theorem c10_middleware_invariant {ρ : Type}
    (reqs : List (Except HTTPError ρ × ℚ)) :
    (run_middleware reqs).total_requests = reqs.length ∧
    (run_middleware reqs).successful_requests = countOk reqs ∧
    (run_middleware reqs).failed_requests = reqs.length - countOk reqs ∧
    (run_middleware reqs).total_requests =
      (run_middleware reqs).successful_requests +
        (run_middleware reqs).failed_requests ∧
    (run_middleware reqs).processing_times.length = min reqs.length 1000 ∧
    ∀ (s : Stats) (o : Except HTTPError ρ) (t : ℚ),
      (track_requests s o t).total_requests = s.total_requests + 1 ∧
      (track_requests s o t).successful_requests +
          (track_requests s o t).failed_requests =
        s.successful_requests + s.failed_requests + 1 := by
  have hspec := foldl_track_spec reqs initStats (by simp [initStats])
  have hle := countOk_le_length reqs
  unfold run_middleware
  refine ⟨?_, ?_, ?_, ?_, ?_, ?_⟩
  · rw [hspec.1]; simp [initStats]
  · rw [hspec.2.1]; simp [initStats]
  · rw [hspec.2.2.1]; simp [initStats]
  · rw [hspec.1, hspec.2.1, hspec.2.2.1]; simp [initStats]; omega
  · rw [hspec.2.2.2.1]
    unfold lastN
    simp [initStats]
    omega
  · intro s o t
    refine ⟨track_total s o t, ?_⟩
    cases o with
    | ok v =>
      have := track_ok s v t
      omega
    | error e =>
      have := @track_err ρ s e t
      omega

/-- Claim C8, counterexample.  The snapshot's success rate is NOT
`success/total×100` exactly: with total=3, success=1 the endpoint reports
`round(100/3, 2) = 33.33`, while the exact value `100/3` has no finite
decimal expansion. -/
theorem c8_counterexample_rate_is_rounded :
    (get_server_stats (run_middleware threeReqs)).total_requests = 3 ∧
    (get_server_stats (run_middleware threeReqs)).successful_requests = 1 ∧
    (get_server_stats (run_middleware threeReqs)).success_rate = 3333 / 100 ∧
    (1 : ℚ) / 3 * 100 ≠ 3333 / 100 := by
  refine ⟨rfl, rfl, ?_, by norm_num⟩
  norm_num [threeReqs, run_middleware, track_requests, initStats,
    get_server_stats, round2, round_eq]

/-- Claim C8, amended.  The stats snapshot returns the exact counters; its
success rate equals `success/total×100` rounded to two decimal places (0 when
total is 0, no division fault); its average equals the arithmetic mean of the
retained latency window rounded to two decimal places (0 when the window is
empty); and the window retains exactly the last `min(n, 1000)` samples with
strict FIFO eviction of the oldest, so samples beyond capacity no longer
contribute to the mean. -/
theorem c8_snapshot_contract {ρ : Type}
    (reqs : List (Except HTTPError ρ × ℚ)) :
    (get_server_stats (run_middleware reqs)).total_requests = reqs.length ∧
    (get_server_stats (run_middleware reqs)).successful_requests =
      countOk reqs ∧
    (get_server_stats (run_middleware reqs)).failed_requests =
      reqs.length - countOk reqs ∧
    (run_middleware reqs).processing_times = lastN 1000 (reqs.map Prod.snd) ∧
    (get_server_stats (run_middleware reqs)).success_rate =
      round2 (if 0 < reqs.length then
        (countOk reqs : ℚ) / (reqs.length : ℚ) * 100 else 0) ∧
    (get_server_stats (run_middleware reqs)).average_processing_time_ms =
      round2 (meanQ (lastN 1000 (reqs.map Prod.snd))) := by
  obtain ⟨h1, h2, h3, h4, -⟩ :=
    foldl_track_spec reqs initStats (by simp [initStats])
  simp only [initStats, List.nil_append, Nat.zero_add] at h1 h2 h3 h4
  refine ⟨?_, ?_, ?_, ?_, ?_, ?_⟩ <;>
    simp only [run_middleware, get_server_stats, meanQ, initStats, gt_iff_lt,
      h1, h2, h3, h4]

/-- Claim C4, code bug.  The claim states the spec's intent — and the intent
of the `except` arm of `track_requests` itself — but the code misses it:
FastAPI mounts user middleware outside Starlette's ExceptionMiddleware, so
every `HTTPException` that `perform_ocr` raises (invalid image 400,
model-build 500, recognition 500) is converted into a normal response inside
`call_next` (`toResponse`), and `track_requests` runs its SUCCESS arm.  For
every request, on every exit path, the middleware increments
`successful_requests` and never `failed_requests` (the one stats update —
total increment and sample append — does still happen).  Concretely: a
request with an undecodable image produces the 400 error, yet the recorded
stats are total=1, success=1, fail=0. -/
theorem c4_failure_counted_as_success :
    (∀ (env : Env) (cache : Cache) (req : OcrRequest) (now : Nat)
       (s : Stats) (t : ℚ),
      (track_requests s
        (Except.ok (toResponse (perform_ocr env cache req now).1))
        t).successful_requests = s.successful_requests + 1 ∧
      (track_requests s
        (Except.ok (toResponse (perform_ocr env cache req now).1))
        t).failed_requests = s.failed_requests ∧
      (track_requests s
        (Except.ok (toResponse (perform_ocr env cache req now).1))
        t).total_requests = s.total_requests + 1) ∧
    (perform_ocr envDecodeFail []
      { image := "x", languages := ["en"], detail := 1, gpu := true } 0).1 =
      Except.error (HTTPError.badRequest "Invalid image data") ∧
    toResponse (perform_ocr envDecodeFail []
      { image := "x", languages := ["en"], detail := 1, gpu := true } 0).1 =
      HTTPResponse.errorResponse 400 "Invalid image data" ∧
    track_requests initStats
      (Except.ok (toResponse (perform_ocr envDecodeFail []
        { image := "x", languages := ["en"], detail := 1, gpu := true } 0).1))
      5 =
      { total_requests := 1, successful_requests := 1, failed_requests := 0,
        processing_times := [5] } :=
  ⟨fun _ _ _ _ _ _ => ⟨rfl, rfl, rfl⟩, rfl, rfl, rfl⟩

/-- Claim C9.  For a successful recognition: with detail level 0 every response
entry carries only its text (bounding box empty, confidence zero); with
detail level 1 every entry carries the model's text and confidence (within
[0,1] under the hypothesis that the model yields confidences in [0,1]) and a
4-point bounding box of 2-coordinate integer points, under the hypothesis
that the model yields 4-corner boxes. -/
theorem c9_detail_level_contract
    (env : Env) (cache : Cache) (req : OcrRequest) (now : Nat)
    (image : Image) (reader : Reader) (cache2 : Cache) (b : Nat)
    (spans : List RawSpan)
    (hdec : env.decode req.image = some image)
    (hmod : get_or_create_model env.builder cache req.languages req.gpu now =
      (Except.ok reader, cache2, b))
    (hread : env.readtext reader image req.detail = Except.ok spans)
    (hconf : ∀ sp ∈ spans, 0 ≤ sp.confidence ∧ sp.confidence ≤ 1)
    (hbox : ∀ sp ∈ spans, sp.bbox.length = 4) :
    ∃ body, (perform_ocr env cache req now).1 = Except.ok body ∧
      body.status = "success" ∧
      (req.detail = 0 →
        List.Forall₂
          (fun r sp => r.text = sp.text ∧ r.bbox = [] ∧ r.confidence = 0)
          body.results spans) ∧
      (req.detail = 1 →
        List.Forall₂
          (fun r sp => r.text = sp.text ∧ r.confidence = sp.confidence ∧
            0 ≤ r.confidence ∧ r.confidence ≤ 1 ∧
            r.bbox.length = 4 ∧ ∀ p ∈ r.bbox, p.length = 2)
          body.results spans) := by
  unfold perform_ocr
  rw [hdec, hmod]
  dsimp only
  rw [hread]
  dsimp only
  refine ⟨_, rfl, rfl, ?_, ?_⟩
  · intro h0
    rw [if_pos h0]
    rw [List.forall₂_map_left_iff, List.forall₂_same]
    intro sp _
    exact ⟨rfl, rfl, rfl⟩
  · intro h1
    have hne : ¬ req.detail = 0 := by omega
    rw [if_neg hne]
    rw [List.forall₂_map_left_iff, List.forall₂_same]
    intro sp hsp
    refine ⟨rfl, rfl, (hconf sp hsp).1, (hconf sp hsp).2, ?_, ?_⟩
    · rw [List.length_map]
      exact hbox sp hsp
    · intro p hp
      obtain ⟨q, -, rfl⟩ := List.mem_map.1 hp
      rfl

/-- Claim C9, witness.  The spec's end-to-end span
`([[0,0],[10,0],[10,10],[0,10]], "HI", 0.95)` at detail level 1 yields a
response entry satisfying the detail-1 contract. -/
theorem c9_detail_level_contract_witness :
    ∃ body,
      (perform_ocr envDemo []
        { image := "img", languages := ["en"], detail := 1, gpu := true }
        0).1 = Except.ok body ∧
      body.status = "success" ∧
      ((1 : Nat) = 0 →
        List.Forall₂
          (fun r sp => r.text = sp.text ∧ r.bbox = [] ∧ r.confidence = 0)
          body.results [demoSpan]) ∧
      ((1 : Nat) = 1 →
        List.Forall₂
          (fun r sp => r.text = sp.text ∧ r.confidence = sp.confidence ∧
            0 ≤ r.confidence ∧ r.confidence ≤ 1 ∧
            r.bbox.length = 4 ∧ ∀ p ∈ r.bbox, p.length = 2)
          body.results [demoSpan]) :=
  c9_detail_level_contract envDemo []
    { image := "img", languages := ["en"], detail := 1, gpu := true } 0
    0 7 [("en", { reader := 7, languages := ["en"], loaded_at := 0,
                  gpu_enabled := true })] 1 [demoSpan]
    rfl rfl rfl
    (by
      intro sp hsp
      simp only [List.mem_singleton] at hsp
      subst hsp
      constructor <;> norm_num [demoSpan])
    (by
      intro sp hsp
      simp only [List.mem_singleton] at hsp
      subst hsp
      rfl)

/-!
## Single steps of the interleaving machine
-/

theorem stepCaller_check_miss (builder : List String → Bool → Option Reader)
    (languages : List String) (gpu : Bool) (now : Nat)
    (cache : Cache) (builds : Nat) (cs : List CallerPhase) (i : Nat)
    (hget : cs.get? i = some CallerPhase.start)
    (hmiss : dictLookup cache (get_model_key languages) = none) :
    stepCaller builder languages gpu now ⟨cache, builds, cs⟩ i =
      ⟨cache, builds, cs.set i CallerPhase.building⟩ := by
  unfold stepCaller
  dsimp only
  rw [hget]
  dsimp only
  rw [hmiss]

theorem stepCaller_check_hit (builder : List String → Bool → Option Reader)
    (languages : List String) (gpu : Bool) (now : Nat)
    (cache : Cache) (builds : Nat) (cs : List CallerPhase) (i : Nat)
    (entry : CacheEntry)
    (hget : cs.get? i = some CallerPhase.start)
    (hhit : dictLookup cache (get_model_key languages) = some entry) :
    stepCaller builder languages gpu now ⟨cache, builds, cs⟩ i =
      ⟨cache, builds,
       cs.set i (CallerPhase.finished (Except.ok entry.reader))⟩ := by
  unfold stepCaller
  dsimp only
  rw [hget]
  dsimp only
  rw [hhit]

theorem stepCaller_build_ok (builder : List String → Bool → Option Reader)
    (languages : List String) (gpu : Bool) (now : Nat)
    (cache : Cache) (builds : Nat) (cs : List CallerPhase) (i : Nat)
    (r : Reader)
    (hget : cs.get? i = some CallerPhase.building)
    (hb : builder languages gpu = some r) :
    stepCaller builder languages gpu now ⟨cache, builds, cs⟩ i =
      ⟨dictInsert cache (get_model_key languages)
         { reader := r, languages := languages, loaded_at := now,
           gpu_enabled := gpu },
       builds + 1,
       cs.set i (CallerPhase.finished (Except.ok r))⟩ := by
  unfold stepCaller
  dsimp only
  rw [hget]
  dsimp only
  rw [hb]

theorem stepCaller_done (builder : List String → Bool → Option Reader)
    (languages : List String) (gpu : Bool) (now : Nat)
    (cache : Cache) (builds : Nat) (cs : List CallerPhase) (i : Nat)
    (res : Except HTTPError Reader)
    (hget : cs.get? i = some (CallerPhase.finished res)) :
    stepCaller builder languages gpu now ⟨cache, builds, cs⟩ i =
      ⟨cache, builds, cs⟩ := by
  unfold stepCaller
  dsimp only
  rw [hget]

theorem serialSchedule_succ (k : Nat) :
    serialSchedule (k + 1) = serialSchedule k ++ [k, k] := by
  unfold serialSchedule
  rw [List.range_succ, List.flatMap_append]
  rfl

theorem dictLookup_singleton (k : String) (v : CacheEntry) :
    dictLookup [(k, v)] k = some v := by
  simp [dictLookup]

/-- After the first `k` of `n` callers have each run `get_or_create_model`
to completion, serially, starting from the empty cache: one build has
happened, the handle is installed, the first `k` callers hold it and the
rest have not started. -/
theorem runSchedule_serial_segment
    (builder : List String → Bool → Option Reader)
    (languages : List String) (gpu : Bool) (now : Nat) (r : Reader)
    (hb : builder languages gpu = some r) :
    ∀ k n, 1 ≤ k → k ≤ n →
    runSchedule builder languages gpu now (initConc n) (serialSchedule k) =
      { cache := [(get_model_key languages,
          { reader := r, languages := languages, loaded_at := now,
            gpu_enabled := gpu })],
        builds := 1,
        callers :=
          List.replicate k (CallerPhase.finished (Except.ok r)) ++
            List.replicate (n - k) CallerPhase.start } := by
  intro k
  induction k with
  | zero => intro n h1 _; exact absurd h1 (by decide)
  | succ k ih =>
    intro n h1 hkn
    rcases Nat.eq_zero_or_pos k with hk0 | hkpos
    · -- k + 1 = 1: the first caller checks (miss) then builds
      subst hk0
      obtain ⟨m, rfl⟩ : ∃ m, n = m + 1 := ⟨n - 1, by omega⟩
      have hsched : serialSchedule 1 = [0, 0] := rfl
      rw [hsched]
      unfold runSchedule
      simp only [List.foldl_cons, List.foldl_nil]
      have hcallers : (initConc (m + 1)).callers =
          CallerPhase.start :: List.replicate m CallerPhase.start := rfl
      rw [show initConc (m + 1) =
        ⟨[], 0, CallerPhase.start :: List.replicate m CallerPhase.start⟩
        from rfl]
      rw [stepCaller_check_miss builder languages gpu now [] 0
        (CallerPhase.start :: List.replicate m CallerPhase.start) 0 rfl rfl]
      rw [show (CallerPhase.start :: List.replicate m CallerPhase.start).set 0
            CallerPhase.building =
          CallerPhase.building :: List.replicate m CallerPhase.start from rfl]
      rw [stepCaller_build_ok builder languages gpu now [] 0
        (CallerPhase.building :: List.replicate m CallerPhase.start) 0 r rfl hb]
      simp [dictInsert, List.replicate_succ]
    · -- k ≥ 1: callers 0..k-1 are done, caller k checks (hit) and finishes
      have hkn' : k ≤ n := by omega
      have hrec := ih n hkpos hkn'
      rw [serialSchedule_succ, runSchedule, List.foldl_append]
      rw [show List.foldl (stepCaller builder languages gpu now)
            (initConc n) (serialSchedule k) =
          runSchedule builder languages gpu now (initConc n) (serialSchedule k)
        from rfl, hrec]
      have hnk : n - k = (n - (k + 1)) + 1 := by omega
      have hcs : List.replicate k (CallerPhase.finished (Except.ok r)) ++
            List.replicate (n - k) CallerPhase.start =
          List.replicate k (CallerPhase.finished (Except.ok r)) ++
            CallerPhase.start ::
              List.replicate (n - (k + 1)) CallerPhase.start := by
        rw [hnk, List.replicate_succ]
      have hget1 : (List.replicate k (CallerPhase.finished (Except.ok r)) ++
            CallerPhase.start ::
              List.replicate (n - (k + 1)) CallerPhase.start).get? k =
          some CallerPhase.start := by
        rw [List.get?_append_right (by simp)]
        simp
      have hset : (List.replicate k (CallerPhase.finished (Except.ok r)) ++
            CallerPhase.start ::
              List.replicate (n - (k + 1)) CallerPhase.start).set k
            (CallerPhase.finished (Except.ok r)) =
          List.replicate (k + 1) (CallerPhase.finished (Except.ok r)) ++
            List.replicate (n - (k + 1)) CallerPhase.start := by
        rw [List.set_append_right _ _ (by simp)]
        simp [List.replicate_succ', List.append_assoc]
      have hget2 : (List.replicate (k + 1)
              (CallerPhase.finished (Except.ok r)) ++
            List.replicate (n - (k + 1)) CallerPhase.start).get? k =
          some (CallerPhase.finished (Except.ok r)) := by
        rw [List.get?_append (by simp)]
        simp
      simp only [List.foldl_cons, List.foldl_nil]
      rw [hcs]
      rw [stepCaller_check_hit builder languages gpu now _ 1 _ k
        { reader := r, languages := languages, loaded_at := now,
          gpu_enabled := gpu }
        hget1 (dictLookup_singleton _ _)]
      rw [hset]
      rw [stepCaller_done builder languages gpu now _ 1 _ k _ hget2]

/-- Claim C1, counterexample.  `get_or_create_model` has no build coordination:
its cache-membership check and its build-and-install are separate operations
on the shared cache.  Interleaving two concurrent callers for the same fresh
key as check–check–build–build lets both pass the membership check, so the
builder executes twice — not exactly once — even though both callers complete
with a handle. -/
theorem c1_counterexample_duplicate_builds :
    (runSchedule constBuilder ["en"] true 0 (initConc 2) [0, 1, 0, 1]).builds
      = 2 ∧
    (runSchedule constBuilder ["en"] true 0 (initConc 2) [0, 1, 0, 1]).callers
      = [CallerPhase.finished (Except.ok 7),
         CallerPhase.finished (Except.ok 7)] :=
  ⟨rfl, rfl⟩

/-- Claim C1, amended.  Only when the N callers' `get_or_create_model`
invocations do not interleave (each runs its check and build to completion
before the next starts, as under a cooperative scheduler that never suspends
inside the function) does the claimed contract hold: for every key with no
installed handle and a succeeding builder, exactly one builder invocation
executes and all N callers finish with the same handle.  Under interleaved
execution the check-then-create pattern admits duplicate builds. -/
theorem c1_serialized_single_build
    (builder : List String → Bool → Option Reader)
    (languages : List String) (gpu : Bool) (now : Nat) (r : Reader) (n : Nat)
    (hb : builder languages gpu = some r) (hn : 1 ≤ n) :
    runSchedule builder languages gpu now (initConc n) (serialSchedule n) =
      { cache := [(get_model_key languages,
          { reader := r, languages := languages, loaded_at := now,
            gpu_enabled := gpu })],
        builds := 1,
        callers := List.replicate n (CallerPhase.finished (Except.ok r)) } := by
  have h := runSchedule_serial_segment builder languages gpu now r hb n n hn
    le_rfl
  simpa using h

/-- Claim C1, witness.  Three serialized callers for the fresh key `"en"`:
one build, all three receive handle 7. -/
theorem c1_serialized_single_build_witness :
    runSchedule constBuilder ["en"] true 0 (initConc 3) (serialSchedule 3) =
      { cache := [("en",
          { reader := 7, languages := ["en"], loaded_at := 0,
            gpu_enabled := true })],
        builds := 1,
        callers := List.replicate 3 (CallerPhase.finished (Except.ok 7)) } :=
  c1_serialized_single_build constBuilder ["en"] true 0 7 3 rfl (by decide)

end RustOCR
